import Mathlib

set_option autoImplicit false

namespace Untangle

/-!
Shallow embedding of the untangle-api provider registry and adapter layer
(TypeScript sources under packages/core and packages/server).
-/

/-- Embedding of `ModelConfig` (src/packages/core/src/types/provider.ts).
The optional `alias` field is embedded as `aliasId` because `alias` is a
reserved command keyword in Lean; `none` encodes an absent alias.
Optional USD prices are embedded as rationals. -/
structure ModelConfig where
  id : String
  aliasId : Option String := none
  contextWindow : Nat := 8192
  maxOutputTokens : Nat := 4096
  inputPricePer1M : Option ℚ := none
  outputPricePer1M : Option ℚ := none
  capabilities : List String := []
  enabled : Bool
  deriving Repr, DecidableEq

/-- Embedding of `ProviderConfig` (src/packages/core/src/types/provider.ts). -/
structure ProviderConfig where
  id : String
  name : String := ""
  baseUrl : String := ""
  authHeader : String := ""
  authScheme : Option String := none
  models : List ModelConfig
  enabled : Bool
  deriving Repr, DecidableEq

/-- Predicate used by `BaseProviderAdapter.supportsModel` / `getModelConfig`
(src/unnamed/part_005, lines 39-49): an enabled model whose native id or
alias equals the requested id.  `m.alias === modelId` is false for an absent
alias because `undefined` never equals a string. -/
def modelMatches (modelId : String) (m : ModelConfig) : Bool :=
  m.enabled && (m.id == modelId || m.aliasId == some modelId)

/-- Embedding of `BaseProviderAdapter.supportsModel` (src/unnamed/part_005):
`this.config.models.some(m => m.enabled && (m.id === modelId || m.alias === modelId))`. -/
def supportsModel (cfg : ProviderConfig) (modelId : String) : Bool :=
  cfg.models.any (modelMatches modelId)

/-- Embedding of `BaseProviderAdapter.getModelConfig` (src/unnamed/part_005):
`this.config.models.find(m => m.enabled && (m.id === modelId || m.alias === modelId))`. -/
def getModelConfig (cfg : ProviderConfig) (modelId : String) : Option ModelConfig :=
  cfg.models.find? (modelMatches modelId)

/-- Embedding of a registered adapter as seen by the registry.  Every concrete
adapter variant inherits `supportsModel` / `getModelConfig` unchanged from
`BaseProviderAdapter`, so for routing purposes an adapter is its config. -/
structure ProviderAdapter where
  config : ProviderConfig
  deriving Repr, DecidableEq

/-- Embedding of the `ProviderRegistry` class state
(src/packages/core/src/providers/registry.ts): a `Map` from provider id to
adapter, represented as the list of adapters in insertion order (JS `Map`
iteration order). -/
abbrev Registry := List ProviderAdapter

namespace Registry

/-- Embedding of `ProviderRegistry.register`: `Map.set` keyed by
`adapter.config.id` (replaces in place, keeping the original position). -/
def register (r : Registry) (a : ProviderAdapter) : Registry :=
  if (r : List ProviderAdapter).any (fun b => b.config.id == a.config.id) then
    (r : List ProviderAdapter).map (fun b => if b.config.id == a.config.id then a else b)
  else
    (r : List ProviderAdapter) ++ [a]

/-- Embedding of `ProviderRegistry.get`: `Map.get` by provider id. -/
def get (r : Registry) (providerId : String) : Option ProviderAdapter :=
  (r : List ProviderAdapter).find? (fun a => a.config.id == providerId)

/-- Embedding of `ProviderRegistry.getForModel`
(src/packages/core/src/providers/registry.ts, lines 66-73): iterate the map
values in insertion order, returning the first adapter that is enabled and
supports the model. -/
def getForModel (r : Registry) (modelId : String) : Option ProviderAdapter :=
  (r : List ProviderAdapter).find? (fun a => a.config.enabled && supportsModel a.config modelId)

/-- Result of a registry mutation: the new registry state paired with the
JavaScript return value of the method, where `none` encodes `undefined`
(the value a `void`-typed TypeScript method actually returns). -/
abbrev MutationResult := Registry × Option Bool

/-- Embedding of `ProviderRegistry.setProviderEnabled`
(registry.ts, lines 17-22): returns `false` for an unknown provider id,
otherwise mutates the provider's enabled flag and returns `true`. -/
def setProviderEnabled (r : Registry) (providerId : String) (enabled : Bool) : MutationResult :=
  if (r : List ProviderAdapter).any (fun a => a.config.id == providerId) then
    ((r : List ProviderAdapter).map (fun a =>
        if a.config.id == providerId then { a with config := { a.config with enabled := enabled } } else a),
      some true)
  else
    (r, some false)

/-- Embedding of `ProviderRegistry.updateModels` (registry.ts, lines 27-33).
The method is declared `void` in the class body (even though the
`ProviderRegistry` interface in types/provider.ts declares `boolean`), so the
returned JS value is always `undefined`, encoded as `none`. -/
def updateModels (r : Registry) (providerId : String) (models : List ModelConfig) : MutationResult :=
  ((r : List ProviderAdapter).map (fun a =>
      if a.config.id == providerId then { a with config := { a.config with models := models } } else a),
    none)

/-- Embedding of `ProviderRegistry.addModels` (registry.ts, lines 38-50):
appends exactly the given models whose native id is not already present
(membership tested against the pre-existing ids only, by `id`, never by
alias).  Also declared `void` in the class body, so the JS return value is
always `undefined` (`none`). -/
def addModels (r : Registry) (providerId : String) (models : List ModelConfig) : MutationResult :=
  ((r : List ProviderAdapter).map (fun a =>
      if a.config.id == providerId then
        { a with config := { a.config with models :=
            a.config.models ++ models.filter (fun m =>
              !(a.config.models.any (fun e => e.id == m.id))) } }
      else a),
    none)

/-- Helper for `setModelEnabled`: `Array.prototype.find` returns the first
model matching by id or alias, and the code then mutates its enabled flag in
place. -/
def setFirstMatching (modelId : String) (enabled : Bool) : List ModelConfig → List ModelConfig
  | [] => []
  | m :: rest =>
    if m.id == modelId || m.aliasId == some modelId then
      { m with enabled := enabled } :: rest
    else
      m :: setFirstMatching modelId enabled rest

/-- Embedding of `ProviderRegistry.setModelEnabled` (registry.ts, lines
55-64): `false` for an unknown provider, `false` when no model matches by id
or alias, otherwise mutates the first matching model's enabled flag in place
and returns `true`.  Note the model lookup here does not require the model to
be enabled (unlike `supportsModel`). -/
def setModelEnabled (r : Registry) (providerId : String) (modelId : String) (enabled : Bool) :
    MutationResult :=
  match (r : List ProviderAdapter).find? (fun a => a.config.id == providerId) with
  | none => (r, some false)
  | some adapter =>
    if adapter.config.models.any (fun m => m.id == modelId || m.aliasId == some modelId) then
      ((r : List ProviderAdapter).map (fun a =>
          if a.config.id == providerId then
            let newModels := setFirstMatching modelId enabled a.config.models
            { a with config := { a.config with models := newModels } }
          else a),
        some true)
    else
      (r, some false)

end Registry

/-!
Unified wire types (src/unnamed/part_003, the OpenAI-compatible format).
Fields irrelevant to every claim (tool calls, tool ids, the constant
`object` tags) are omitted.
-/

/-- Embedding of the message role union `'system' | 'user' | 'assistant' | 'tool'`. -/
inductive Role where
  | system
  | user
  | assistant
  | tool
  deriving Repr, DecidableEq

/-- Embedding of `OpenAIMessage`; `content : string | null` becomes an
`Option String` with `none` for `null`. -/
structure OpenAIMessage where
  role : Role
  content : Option String
  deriving Repr, DecidableEq

/-- Embedding of `stop?: string | string[]`. -/
inductive StopField where
  | one (s : String)
  | many (ss : List String)
  deriving Repr, DecidableEq

/-- Embedding of `OpenAIRequest`.  Absent optional fields are `none`. -/
structure OpenAIRequest where
  model : String
  messages : List OpenAIMessage
  temperature : Option ℚ := none
  max_tokens : Option Nat := none
  top_p : Option ℚ := none
  stream : Option Bool := none
  stop : Option StopField := none
  deriving Repr, DecidableEq

/-- Embedding of `OpenAIUsage`. -/
structure OpenAIUsage where
  prompt_tokens : Nat
  completion_tokens : Nat
  total_tokens : Nat
  deriving Repr, DecidableEq

/-- Embedding of `OpenAIChoice`; `finish_reason` is one of the literal
strings `'stop' | 'length' | 'tool_calls' | 'content_filter'` or `null`
(`none`). -/
structure OpenAIChoice where
  index : Nat
  message : OpenAIMessage
  finish_reason : Option String
  deriving Repr, DecidableEq

/-- Embedding of `OpenAIResponse` (the `object: 'chat.completion'` tag is
constant and omitted). -/
structure OpenAIResponse where
  id : String
  created : Nat
  model : String
  choices : List OpenAIChoice
  usage : Option OpenAIUsage := none
  deriving Repr, DecidableEq

/-- Embedding of the `delta: Partial<OpenAIMessage>` of a stream chunk
choice: both role and content may be absent. -/
structure DeltaMessage where
  role : Option Role := none
  content : Option String := none
  deriving Repr, DecidableEq

/-- Embedding of one choice of `OpenAIStreamChunk`. -/
structure StreamChoice where
  index : Nat
  delta : DeltaMessage
  finish_reason : Option String
  deriving Repr, DecidableEq

/-- Embedding of `OpenAIStreamChunk` (constant `object` tag omitted). -/
structure OpenAIStreamChunk where
  id : String
  created : Nat
  model : String
  choices : List StreamChoice
  deriving Repr, DecidableEq

/-- Embedding of the body of `OpenAIError`: `{ message, type, code }` with
`code : string | null`. -/
structure ErrorBody where
  message : String
  type : String
  code : Option String
  deriving Repr, DecidableEq

/-!
Error normalization (src/unnamed/part_005 `BaseProviderAdapter.normalizeError`
and src/packages/core/src/providers/openai.ts `OpenAIAdapter.normalizeError`).
A JavaScript `unknown` error value is embedded by the three shapes the code
distinguishes.
-/

/-- Embedding of the JavaScript error values `normalizeError` distinguishes:
an object with an `error` property (`{ error: { message?, type?, code? } }`),
an `Error` instance (carrying its own `message`), or any other value carried
by its `String(...)` form. -/
inductive ErrVal where
  | errObj (message : Option String) (etype : Option String) (code : Option String)
  | exnError (message : String)
  | otherVal (stringForm : String)
  deriving Repr, DecidableEq

/-- JavaScript `String(x)` for the embedded error values: a plain object
stringifies to `[object Object]`, an `Error` named `Error` stringifies to
`Error: <message>`, and any other value is carried in its string form. -/
def jsStringOf : ErrVal → String
  | .errObj _ _ _ => "[object Object]"
  | .exnError m => "Error: " ++ m
  | .otherVal s => s

/-- Embedding of `BaseProviderAdapter.normalizeError` (src/unnamed/part_005,
lines 20-37): an `Error` instance maps to its own message with type
`api_error`; every other value (including an `error`-shaped object, which the
base class never inspects) is stringified with type `unknown_error`. -/
def baseNormalizeError : ErrVal → ErrorBody
  | .exnError m => { message := m, type := "api_error", code := none }
  | e => { message := jsStringOf e, type := "unknown_error", code := none }

/-- Embedding of `OpenAIAdapter.normalizeError`
(src/packages/core/src/providers/openai.ts, lines 104-117): an `error`-shaped
object maps its fields through with defaults (`message` defaults to
`Unknown error`, `type` to `api_error`, `code` to `null`); anything else
falls through to the base implementation. -/
def openaiNormalizeError : ErrVal → ErrorBody
  | .errObj m t c =>
    { message := m.getD "Unknown error", type := t.getD "api_error", code := c }
  | e => baseNormalizeError e

/-- Formalization of claim C5's wording, as a predicate on a normalizer: an
`error`-shaped input copies `message`/`type`/`code` through with `type`
defaulting to `api_error` and `code` to `null`; every other input (including
`Error` exception values) yields the stringified input with type
`unknown_error`. -/
def claimC5Spec (normalize : ErrVal → ErrorBody) : Prop :=
  ∀ e : ErrVal,
    match e with
    | .errObj m t c =>
      (∀ s, m = some s → (normalize e).message = s) ∧
      (normalize e).type = t.getD "api_error" ∧
      (normalize e).code = c
    | _ =>
      (normalize e).message = jsStringOf e ∧
      (normalize e).type = "unknown_error"

/-!
Anthropic adapter (src/unnamed/part_004, class AnthropicAdapter).
-/

/-- Embedding of the Anthropic native message role union `'user' | 'assistant'`. -/
inductive ARole where
  | user
  | assistant
  deriving Repr, DecidableEq

/-- Embedding of `AnthropicMessage` (string content branch; the code always
produces plain strings via `m.content ?? ''`). -/
structure AnthropicMessage where
  role : ARole
  content : String
  deriving Repr, DecidableEq

/-- Embedding of `AnthropicRequest`. -/
structure AnthropicRequest where
  model : String
  max_tokens : Nat
  messages : List AnthropicMessage
  system : Option String
  stream : Option Bool
  temperature : Option ℚ
  top_p : Option ℚ
  stop_sequences : Option (List String)
  deriving Repr, DecidableEq

/-- JavaScript `systemMessages.map(m => m.content).join('\n')`: contents of
the system-role messages, in original order, newline-joined.
`Array.prototype.join` renders a `null` element as the empty string. -/
def systemJoin (messages : List OpenAIMessage) : String :=
  String.intercalate "\n"
    ((messages.filter (fun m => m.role == .system)).map (fun m => m.content.getD ""))

/-- Embedding of `request.stop ? (Array.isArray(request.stop) ? request.stop : [request.stop]) : undefined`. -/
def normalizeStop : Option StopField → Option (List String)
  | none => none
  | some (.one s) => some [s]
  | some (.many ss) => some ss

/-- Embedding of `AnthropicAdapter.transformRequest` (src/unnamed/part_004,
lines 122-149).  `cfg` is the adapter's `this.config` (used by
`getModelConfig` for alias resolution).  The `system` field is
`join('\n') || undefined`: the JS `||` turns an empty joined string into
`undefined` (`none`). -/
def anthropicTransformRequest (cfg : ProviderConfig) (req : OpenAIRequest) : AnthropicRequest :=
  let joined := systemJoin req.messages
  { model := ((getModelConfig cfg req.model).map (fun m => m.id)).getD req.model
    max_tokens := req.max_tokens.getD 4096
    messages := (req.messages.filter (fun m => m.role != .system)).map (fun m =>
      { role := if m.role == .assistant then ARole.assistant else ARole.user
        content := m.content.getD "" })
    system := if joined == "" then none else some joined
    stream := req.stream
    temperature := req.temperature
    top_p := req.top_p
    stop_sequences := normalizeStop req.stop }

/-- Embedding of the optional `delta` object of an Anthropic stream event:
`delta.type` and `delta.text` as read by `transformStreamChunk`. -/
structure AnthropicDelta where
  dtype : String
  text : Option String := none
  deriving Repr, DecidableEq

/-- Embedding of a decoded Anthropic stream event payload: the `type` tag,
the optional `delta` object and the optional top-level `index`. -/
structure AnthropicStreamPayload where
  type : String
  delta : Option AnthropicDelta := none
  index : Option Nat := none
  deriving Repr, DecidableEq

/-- Input to `AnthropicAdapter.transformStreamChunk`: the literal `[DONE]`
sentinel, a string that fails `JSON.parse` (the `catch` branch), or a decoded
payload. -/
inductive AnthropicChunkInput where
  | done
  | malformed
  | payload (p : AnthropicStreamPayload)
  deriving Repr, DecidableEq

/-- Embedding of `AnthropicAdapter.transformStreamChunk` (src/unnamed/part_004,
lines 186-225).  `now` stands for `Date.now()`. -/
def anthropicTransformStreamChunk (now : Nat) : AnthropicChunkInput → Option OpenAIStreamChunk
  | .done => none
  | .malformed => none
  | .payload p =>
    if p.type == "content_block_delta" && ((p.delta.map (fun d => d.dtype)).getD "" == "text_delta") then
      some { id := (p.index.map Nat.repr).getD "chunk"
             created := now
             model := ""
             choices := [{ index := 0
                           delta := { content := (p.delta.map (fun d => d.text)).getD none }
                           finish_reason := none }] }
    else if p.type == "message_stop" then
      some { id := "done"
             created := now
             model := ""
             choices := [{ index := 0, delta := {}, finish_reason := some "stop" }] }
    else
      none

/-!
Google adapter (src/packages/core/src/providers/registry.ts concatenation,
class GoogleAdapter).
-/

/-- Embedding of the Google native role union `'user' | 'model'`. -/
inductive GRole where
  | user
  | model
  deriving Repr, DecidableEq

/-- Embedding of a Google content part `{ text: string }`. -/
structure GooglePart where
  text : String
  deriving Repr, DecidableEq

/-- Embedding of `GoogleContent`. -/
structure GoogleContent where
  role : GRole
  parts : List GooglePart
  deriving Repr, DecidableEq

/-- Embedding of the `generationConfig` object (always constructed, with
possibly-undefined members). -/
structure GoogleGenConfig where
  temperature : Option ℚ
  topP : Option ℚ
  maxOutputTokens : Option Nat
  stopSequences : Option (List String)
  deriving Repr, DecidableEq

/-- Embedding of `GoogleRequest`; `systemInstruction` carries its `parts`
list when present. -/
structure GoogleRequest where
  contents : List GoogleContent
  systemInstruction : Option (List GooglePart)
  generationConfig : GoogleGenConfig
  deriving Repr, DecidableEq

/-- Embedding of `GoogleAdapter.transformRequest`
(src/packages/core/src/providers/registry.ts concatenation, lines 202-229):
the system instruction is present exactly when at least one system-role
message exists, carrying one part with the newline-joined contents. -/
def googleTransformRequest (req : OpenAIRequest) : GoogleRequest :=
  { contents := (req.messages.filter (fun m => m.role != .system)).map (fun m =>
      { role := if m.role == .assistant then GRole.model else GRole.user
        parts := [{ text := m.content.getD "" }] })
    systemInstruction :=
      if (req.messages.filter (fun m => m.role == .system)).length > 0 then
        some [{ text := systemJoin req.messages }]
      else
        none
    generationConfig :=
      { temperature := req.temperature
        topP := req.top_p
        maxOutputTokens := req.max_tokens
        stopSequences := normalizeStop req.stop } }

/-- Embedding of a part of a Google stream candidate, where `text` may be
absent. -/
structure GoogleStreamPart where
  text : Option String := none
  deriving Repr, DecidableEq

/-- Embedding of the `content` object of a Google stream candidate. -/
structure GoogleStreamContent where
  parts : List GoogleStreamPart
  deriving Repr, DecidableEq

/-- Embedding of one candidate of a Google stream payload; `content` and
`finishReason` may both be absent. -/
structure GoogleStreamCandidate where
  content : Option GoogleStreamContent := none
  finishReason : Option String := none
  deriving Repr, DecidableEq

/-- Embedding of a decoded Google stream payload (`data.candidates` absent is
embedded as the empty list, which the optional-chaining reads treat the
same way). -/
structure GoogleStreamPayload where
  candidates : List GoogleStreamCandidate
  deriving Repr, DecidableEq

/-- Input to `GoogleAdapter.transformStreamChunk`: a string that fails
`JSON.parse` (the `catch` branch returns `null`), or a decoded payload. -/
inductive GoogleChunkInput where
  | malformed
  | payload (p : GoogleStreamPayload)
  deriving Repr, DecidableEq

/-- Embedding of `GoogleAdapter.mapFinishReason`: a falsy reason maps to
`null`, `STOP` to `stop`, `MAX_TOKENS` to `length`, anything else to `stop`. -/
def googleMapFinishReason : Option String → Option String
  | none => none
  | some r =>
    if r == "" then none
    else if r == "STOP" then some "stop"
    else if r == "MAX_TOKENS" then some "length"
    else some "stop"

/-- Embedding of `this.resolveModelId(request)` for the Google adapter:
`request?.model ?? 'gemini-1.5-flash'` resolved through `getModelConfig`,
falling back to the requested identifier. -/
def googleResolveModelId (cfg : ProviderConfig) (req : Option OpenAIRequest) : String :=
  let requested := (req.map (fun r => r.model)).getD "gemini-1.5-flash"
  ((getModelConfig cfg requested).map (fun m => m.id)).getD requested

/-- Reading of `candidate?.content?.parts?.[0]?.text` on a Google stream
payload's first candidate. -/
def googleFirstText (p : GoogleStreamPayload) : Option String :=
  ((p.candidates.head?.bind (fun c => c.content)).bind (fun c => c.parts.head?)).bind
    (fun part => part.text)

/-- Embedding of the second half of `GoogleAdapter.transformStreamChunk`:
the `if (candidate?.finishReason)` branch reached when the text guard fails. -/
def googleFinishFallThrough (now : Nat) (model : String) (p : GoogleStreamPayload) :
    Option OpenAIStreamChunk :=
  match p.candidates.head? with
  | some c =>
    if (c.finishReason.getD "") == "" then
      none
    else
      some { id := "google-" ++ Nat.repr now
             created := now
             model := model
             choices := [{ index := 0, delta := {}, finish_reason := googleMapFinishReason c.finishReason }] }
  | none => none

/-- Embedding of `GoogleAdapter.transformStreamChunk`
(src/packages/core/src/providers/registry.ts concatenation, lines 266-306).
`now` stands for `this.unixTimestamp()` (a Base-adapter helper not present
under src; per the spec it is a unix timestamp, embedded as an explicit
parameter); the `if (text)` and `if (candidate?.finishReason)` guards are
JavaScript truthiness tests, so an empty string fails them and control falls
through to the finish-reason branch, embedded by `googleFinishFallThrough`. -/
def googleTransformStreamChunk (now : Nat) (cfg : ProviderConfig) (req : Option OpenAIRequest) :
    GoogleChunkInput → Option OpenAIStreamChunk
  | .malformed => none
  | .payload p =>
    let model := googleResolveModelId cfg req
    match googleFirstText p with
    | some t =>
      if t == "" then
        googleFinishFallThrough now model p
      else
        some { id := "google-" ++ Nat.repr now
               created := now
               model := model
               choices := [{ index := 0, delta := { content := some t }, finish_reason := none }] }
    | none => googleFinishFallThrough now model p

/-!
SSE parsing and the streaming read loop
(src/packages/server/src/routes/chat.ts).
-/

/-- ASCII whitespace recognized by the JavaScript `trim` / `trimStart`
(space, tab, and the line terminators; the Unicode space classes never occur
in the SSE framing). -/
def isJsWhitespace (c : Char) : Bool :=
  c == ' ' || c == '\t' || c == '\n' || c == '\r' || c == '\x0b' || c == '\x0c'

/-- JavaScript `String.prototype.split('\n')` on the character list. -/
def splitNlData : List Char → List (List Char)
  | [] => [[]]
  | '\n' :: rest => [] :: splitNlData rest
  | c :: rest =>
    match splitNlData rest with
    | [] => [[c]]
    | h :: t => (c :: h) :: t

/-- JavaScript `String.prototype.split('\n')`. -/
def jsSplitNl (s : String) : List String :=
  (splitNlData s.data).map (fun l => ⟨l⟩)

/-- JavaScript `String.prototype.startsWith` on character lists (string data
first, candidate precursor second). -/
def jsStartsWithData : List Char → List Char → Bool
  | _, [] => true
  | [], _ :: _ => false
  | c :: cs, d :: ds => c == d && jsStartsWithData cs ds

/-- JavaScript `line.startsWith(pre)`. -/
def jsStartsWith (s pre : String) : Bool :=
  jsStartsWithData s.data pre.data

/-- JavaScript `String.prototype.slice(n)` for a nonnegative index. -/
def jsSlice (n : Nat) (s : String) : String :=
  ⟨s.data.drop n⟩

/-- JavaScript `String.prototype.trimStart`. -/
def jsTrimStart (s : String) : String :=
  ⟨s.data.dropWhile isJsWhitespace⟩

/-- JavaScript `String.prototype.trim`. -/
def jsTrim (s : String) : String :=
  ⟨(((s.data.dropWhile isJsWhitespace).reverse.dropWhile isJsWhitespace).reverse)⟩

/-- Lines of an SSE block beginning with `data:`, with the prefix removed and
leading whitespace trimmed; embedding of the first half of
`parseSseEventData` (chat.ts, lines 31-43):
`eventBlock.split('\n').filter(line => line.startsWith('data:')).map(line => line.slice(5).trimStart())`. -/
def sseDataLines (block : String) : List String :=
  ((jsSplitNl block).filter (fun l => jsStartsWith l "data:")).map
    (fun l => jsTrimStart (jsSlice 5 l))

/-- Embedding of `parseSseEventData` (chat.ts, lines 31-43): when the block
contains `data:` lines their payloads are newline-joined into a single event
payload; otherwise the whitespace-trimmed block itself is the payload when
nonempty, and an all-whitespace block yields no payload. -/
def parseSseEventData (block : String) : List String :=
  if (sseDataLines block).isEmpty then
    if jsTrim block == "" then [] else [jsTrim block]
  else
    [String.intercalate "\n" (sseDataLines block)]

/-- One write to the client stream: the verbatim `data: [DONE]` sentinel, a
serialized unified chunk, or a serialized unified error event. -/
inductive StreamWrite where
  | done
  | chunk (c : OpenAIStreamChunk)
  | errorEvent (e : ErrorBody)
  deriving Repr, DecidableEq

/-- Embedding of the per-chunk output-token estimate (chat.ts, lines
173-175): `if (chunk.choices?.[0]?.delta?.content) totalOutputTokens +=
Math.ceil(content.length / 4)`; the truthiness guard makes an absent or
empty content contribute nothing. -/
def chunkTokenEstimate (c : OpenAIStreamChunk) : Nat :=
  match c.choices.head? with
  | some ch =>
    match ch.delta.content with
    | some s => if s == "" then 0 else (s.length + 3) / 4
    | none => 0
  | none => 0

/-- Result of processing zero or more event payloads in the main read loop:
the client writes, the payloads handed to `transformStreamChunk`, and the
accumulated output-token estimate. -/
structure StreamAcc where
  writes : List StreamWrite
  payloads : List String
  tokens : Nat
  deriving Repr, DecidableEq

/-- Stream-processing result holding nothing yet. -/
def emptyAcc : StreamAcc := { writes := [], payloads := [], tokens := 0 }

/-- Embedding of the body of the main read loop for one event payload
(chat.ts, lines 161-176): a `[DONE]` payload is written verbatim and never
transformed; any other payload is handed to the adapter's
`transformStreamChunk`, whose non-null results are written and token-counted. -/
def processMainPayload (tsc : String → Option OpenAIStreamChunk) (p : String) : StreamAcc :=
  if p == "[DONE]" then
    { writes := [.done], payloads := [], tokens := 0 }
  else
    match tsc p with
    | none => { writes := [], payloads := [p], tokens := 0 }
    | some c => { writes := [.chunk c], payloads := [p], tokens := chunkTokenEstimate c }

/-- Concatenation of stream-processing results, in order. -/
def StreamAcc.append (a b : StreamAcc) : StreamAcc :=
  { writes := a.writes ++ b.writes
    payloads := a.payloads ++ b.payloads
    tokens := a.tokens + b.tokens }

/-- Processing of one complete (double-newline-terminated) block in the main
read loop. -/
def processMainBlock (tsc : String → Option OpenAIStreamChunk) (b : String) : StreamAcc :=
  (parseSseEventData b).foldl (fun acc p => acc.append (processMainPayload tsc p)) emptyAcc

/-- Processing of all complete blocks in the main read loop, in order. -/
def processMainBlocks (tsc : String → Option OpenAIStreamChunk) (bs : List String) : StreamAcc :=
  bs.foldl (fun acc b => acc.append (processMainBlock tsc b)) emptyAcc

/-- Embedding of the body of the trailing-block flush for one event payload
(chat.ts, lines 184-191): a `[DONE]` payload is dropped (neither written nor
transformed); any other payload is transformed, non-null results are written,
and no output tokens are accumulated. -/
def processTrailingPayload (tsc : String → Option OpenAIStreamChunk) (p : String) : StreamAcc :=
  if p == "[DONE]" then
    emptyAcc
  else
    match tsc p with
    | none => { writes := [], payloads := [p], tokens := 0 }
    | some c => { writes := [.chunk c], payloads := [p], tokens := 0 }

/-- Embedding of the trailing-block flush (chat.ts, lines 182-192): when the
upstream closes with a nonempty (after trimming) buffer left, its payloads
are parsed with the same `parseSseEventData` and processed by
`processTrailingPayload`. -/
def processTrailing (tsc : String → Option OpenAIStreamChunk) (trailing : String) : StreamAcc :=
  if (jsTrim trailing == "") then
    emptyAcc
  else
    (parseSseEventData trailing).foldl (fun acc p => acc.append (processTrailingPayload tsc p))
      emptyAcc

/-- Splitting of the character stream at each leftmost `\n\n` occurrence, as
the read loop's repeated `indexOf('\n\n')` cuts do (chat.ts, lines 156-179). -/
def splitDoubleNlData : List Char → List (List Char)
  | [] => [[]]
  | '\n' :: '\n' :: rest => [] :: splitDoubleNlData rest
  | c :: rest =>
    match splitDoubleNlData rest with
    | [] => [[c]]
    | h :: t => (c :: h) :: t

/-- Splitting of the fully received upstream text into the complete
double-newline-delimited blocks extracted by the read loop and the trailing
buffer remaining when the upstream closes: repeatedly cutting the buffer at
the first `\n\n` extracts exactly the `splitDoubleNlData` segments, the last
segment being the unterminated remainder. -/
def sseSplit (s : String) : List String × String :=
  let parts := (splitDoubleNlData s.data).map (fun l => (⟨l⟩ : String))
  (parts.dropLast, parts.getLastD "")

/-- Whole-stream processing: the main loop over every complete block followed
by the trailing-block flush. -/
def processStream (tsc : String → Option OpenAIStreamChunk) (s : String) : StreamAcc :=
  (processMainBlocks tsc (sseSplit s).1).append (processTrailing tsc (sseSplit s).2)

/-!
Chat completion orchestrator (src/packages/server/src/routes/chat.ts,
createChatRoutes).
-/

/-- One call to the usage sink `usageTracker.recordUsage(providerId, modelId,
inputTokens, outputTokens, durationMs, success, errorMessage?)`. -/
structure UsageCall where
  providerId : String
  modelId : String
  inputTokens : Nat
  outputTokens : Nat
  durationMs : Nat
  success : Bool
  errorMessage : Option String
  deriving Repr, DecidableEq

/-- Response produced by the handler: a JSON error with an HTTP status, a
JSON success body, or a streamed SSE response given by its writes. -/
inductive ChatResponse where
  | jsonError (status : Nat) (body : ErrorBody)
  | jsonOk (resp : OpenAIResponse)
  | streamed (writes : List StreamWrite)
  deriving Repr, DecidableEq

/-- Result of one request: the response together with every call made to the
usage sink, in order. -/
structure ChatResult where
  response : ChatResponse
  usageCalls : List UsageCall
  deriving Repr, DecidableEq

/-- Embedding of `toHttpErrorStatus` (chat.ts, lines 11-29). -/
def toHttpErrorStatus (status : Nat) : Nat :=
  if status == 400 || status == 401 || status == 403 || status == 404 ||
      status == 408 || status == 409 || status == 422 || status == 429 ||
      status == 500 || status == 502 || status == 503 || status == 504 then
    status
  else if 400 ≤ status && status < 500 then
    400
  else
    502

/-- Embedding of `Math.ceil(n / 4)` for a character count `n`. -/
def estTokens (n : Nat) : Nat := (n + 3) / 4

/-- Outcome of the non-streaming upstream `fetch`, parametrized by the native
response type `ν`: a 2xx JSON body, a non-2xx response (carrying the value of
`errorBody.error?.message || errorBody.message`, `none` for `undefined`), or
a thrown exception. -/
inductive NonStreamOutcome (ν : Type) where
  | ok (native : ν)
  | httpError (status : Nat) (extractedMsg : Option String)
  | exn (err : ErrVal)
  deriving Repr, DecidableEq

/-- Outcome of the streaming upstream `fetch`: a 2xx SSE body (the fully
received, CRLF-normalized text), a non-2xx response (carrying the
`readUpstreamError` value handed to the adapter's `normalizeError`), or an
exception thrown inside the streaming handler. -/
inductive StreamOutcome where
  | ok (text : String)
  | httpError (upstreamError : ErrVal)
  | exn (err : ErrVal)
  deriving Repr, DecidableEq

/-- Embedding of the validation/routing/credential phase of the handler
(chat.ts, lines 72-99): body validation (`isValidChatRequest`, with `none`
standing for an unparseable or structurally invalid body and the nonempty
`model` check embedded explicitly), registry lookup, then the key lookup with
its JS truthiness test (`if (!apiKey)`, so an empty-string key is treated as
missing).  No usage call is made on any of these error paths.  The 400
message is abbreviated here; the source's literal text spells out the
expected body shape in braces. -/
def resolveChat (r : Registry) (getApiKey : String → Option String)
    (rawBody : Option OpenAIRequest) :
    Except (Nat × ErrorBody) (ProviderAdapter × String × OpenAIRequest) :=
  match rawBody with
  | none =>
    .error (400, { message := "Invalid request body. Expected model and messages"
                   type := "invalid_request_error", code := some "invalid_body" })
  | some b =>
    if b.model == "" then
      .error (400, { message := "Invalid request body. Expected model and messages"
                     type := "invalid_request_error", code := some "invalid_body" })
    else
      match r.getForModel b.model with
      | none =>
        .error (404, { message := "Model not found: " ++ b.model
                       type := "invalid_request_error", code := some "model_not_found" })
      | some adapter =>
        match getApiKey adapter.config.id with
        | none =>
          .error (401, { message := "No API key configured for provider: " ++ adapter.config.id
                         type := "authentication_error", code := some "missing_api_key" })
        | some k =>
          if k == "" then
            .error (401, { message := "No API key configured for provider: " ++ adapter.config.id
                           type := "authentication_error", code := some "missing_api_key" })
          else
            .ok (adapter, k, b)

/-- Embedding of the non-streaming tail of the handler (chat.ts, lines
210-250), including the outer catch: `tr` is the resolved adapter's
`transformResponse`, `stringifyMessages` models `JSON.stringify` of the
message array, and `duration` models `Date.now() - startTime`. -/
def nonStreamFinish {ν : Type} (providerId modelId : String)
    (messages : List OpenAIMessage) (stringifyMessages : List OpenAIMessage → String)
    (tr : ν → OpenAIResponse) (duration : Nat) : NonStreamOutcome ν → ChatResult
  | .ok native =>
    let resp := tr native
    let inputTokens :=
      match resp.usage with
      | some u => u.prompt_tokens
      | none => estTokens (stringifyMessages messages).length
    let contentLen :=
      match resp.choices.head? with
      | some c => (c.message.content.map String.length).getD 0
      | none => 0
    let outputTokens :=
      match resp.usage with
      | some u => u.completion_tokens
      | none => estTokens contentLen
    { response := .jsonOk resp
      usageCalls := [{ providerId := providerId, modelId := modelId
                       inputTokens := inputTokens, outputTokens := outputTokens
                       durationMs := duration, success := true, errorMessage := none }] }
  | .httpError status extractedMsg =>
    let displayMsg :=
      match extractedMsg with
      | some s => if s == "" then "Unknown error" else s
      | none => "Unknown error"
    { response := .jsonError (toHttpErrorStatus status)
        { message := displayMsg, type := "api_error", code := none }
      usageCalls := [{ providerId := providerId, modelId := modelId
                       inputTokens := 0, outputTokens := 0
                       durationMs := duration, success := false, errorMessage := extractedMsg }] }
  | .exn err =>
    { response := .jsonError 500
        { message := match err with | .exnError m => m | _ => "Internal server error"
          type := "internal_error", code := none }
      usageCalls := [{ providerId := providerId, modelId := modelId
                       inputTokens := 0, outputTokens := 0
                       durationMs := duration, success := false
                       errorMessage := some (jsStringOf err) }] }

/-- Embedding of the streaming tail of the handler (chat.ts, lines 114-207):
`tsc` is the resolved adapter's `transformStreamChunk` (with the original
request already applied) and `normalizeErr` its `normalizeError`. -/
def streamFinish (providerId modelId : String)
    (messages : List OpenAIMessage) (stringifyMessages : List OpenAIMessage → String)
    (tsc : String → Option OpenAIStreamChunk) (normalizeErr : ErrVal → ErrorBody)
    (duration : Nat) : StreamOutcome → ChatResult
  | .ok text =>
    let acc := processStream tsc text
    let inputTokens := estTokens (stringifyMessages messages).length
    { response := .streamed acc.writes
      usageCalls := [{ providerId := providerId, modelId := modelId
                       inputTokens := inputTokens, outputTokens := acc.tokens
                       durationMs := duration, success := true, errorMessage := none }] }
  | .httpError upstreamError =>
    let normalized := normalizeErr upstreamError
    { response := .streamed [.errorEvent normalized]
      usageCalls := [{ providerId := providerId, modelId := modelId
                       inputTokens := 0, outputTokens := 0
                       durationMs := duration, success := false
                       errorMessage := some normalized.message }] }
  | .exn err =>
    { response := .streamed [.errorEvent (normalizeErr err)]
      usageCalls := [{ providerId := providerId, modelId := modelId
                       inputTokens := 0, outputTokens := 0
                       durationMs := duration, success := false
                       errorMessage := some (jsStringOf err) }] }

/-- Embedding of the full `POST /v1/chat/completions` handler (chat.ts,
lines 66-251).  The adapter-polymorphic pieces (`tr`, `tsc`, `normalizeErr`)
model the resolved adapter's methods; `nsOutcome` and `sOutcome` model the
upstream behavior of whichever fetch the handler performs (paths that return
before dispatch use neither).  `if (body.stream)` is a truthiness test, so an
absent or `false` stream flag selects the non-streaming path. -/
def chatCompletions {ν : Type} (r : Registry) (getApiKey : String → Option String)
    (rawBody : Option OpenAIRequest) (stringifyMessages : List OpenAIMessage → String)
    (tr : ν → OpenAIResponse) (tsc : String → Option OpenAIStreamChunk)
    (normalizeErr : ErrVal → ErrorBody) (duration : Nat)
    (nsOutcome : NonStreamOutcome ν) (sOutcome : StreamOutcome) : ChatResult :=
  match resolveChat r getApiKey rawBody with
  | .error (status, body) => { response := .jsonError status body, usageCalls := [] }
  | .ok (adapter, _key, b) =>
    if b.stream.getD false then
      streamFinish adapter.config.id b.model b.messages stringifyMessages tsc normalizeErr
        duration sOutcome
    else
      nonStreamFinish adapter.config.id b.model b.messages stringifyMessages tr
        duration nsOutcome

/-!
Custom provider templating (src/packages/core/src/templates/engine.ts and
custom-provider.ts).
-/

/-- Embedding of the `{ output: <value> }` wrapper fed to the compiled
response template. -/
structure OutputWrapped (γ : Type) where
  output : γ
  deriving Repr, DecidableEq

/-- Embedding of `TemplateEngine.transformToObject` (engine.ts, lines 40-43)
for a compiled template: render the template, then `JSON.parse` the rendered
text.  `render` models the compiled Handlebars template (which can throw,
embedded as `Except.error`) and `parseJson` models `JSON.parse` of the
rendered text; a failure of either is the thrown exception, which this
function does not catch. -/
def transformToObject {α β : Type} (render : α → Except String String)
    (parseJson : String → Except String β) (data : α) : Except String β :=
  (render data).bind parseJson

/-- Embedding of `CustomProviderAdapter.transformResponse`
(custom-provider.ts, lines 99-104): the compiled response template applied to
`{ output: response }`, with no exception handling — a render or parse error
propagates to the caller as the `Except.error` result. -/
def customTransformResponse {γ β : Type} (render : OutputWrapped γ → Except String String)
    (parseJson : String → Except String β) (response : γ) : Except String β :=
  transformToObject render parseJson { output := response }

/-- Embedding of `CustomProviderAdapter.transformStreamChunk`
(custom-provider.ts, lines 106-117): `JSON.parse(chunk)` and the template
pipeline are both inside the `try` block, and the `catch` returns `null`, so
any failure yields `none`. -/
def customTransformStreamChunk {γ β : Type} (parseChunk : String → Except String γ)
    (render : OutputWrapped γ → Except String String)
    (parseJson : String → Except String β) (chunk : String) : Option β :=
  match parseChunk chunk with
  | .error _ => none
  | .ok data =>
    match transformToObject render parseJson { output := data } with
    | .error _ => none
    | .ok v => some v

/-!
Helper lemmas.
-/

/-- Characterization of `List.find?` on a successful lookup: the hit
satisfies the predicate and is the first element of the list to do so. -/
theorem find?_spec_first {α : Type _} (p : α → Bool) :
    ∀ (l : List α) (a : α), l.find? p = some a →
      p a = true ∧ ∃ pre post, l = pre ++ a :: post ∧ ∀ b ∈ pre, p b = false := by
  intro l
  induction l with
  | nil => intro a h; simp at h
  | cons x xs ih =>
    intro a h
    by_cases hx : p x = true
    · rw [List.find?_cons_of_pos _ hx] at h
      cases h
      exact ⟨hx, [], xs, rfl, by simp⟩
    · rw [List.find?_cons_of_neg _ (by simpa using hx)] at h
      obtain ⟨hpa, pre, post, heq, hpre⟩ := ih a h
      refine ⟨hpa, x :: pre, post, by rw [heq]; rfl, ?_⟩
      intro b hb
      rcases List.mem_cons.mp hb with hb | hb
      · subst hb; simpa using hx
      · exact hpre b hb

/-- Unfolding of the `supportsModel` / `getModelConfig` match predicate. -/
theorem modelMatches_iff (modelId : String) (m : ModelConfig) :
    modelMatches modelId m = true ↔
      m.enabled = true ∧ (m.id = modelId ∨ m.aliasId = some modelId) := by
  simp [modelMatches]

/-!
Claim theorems.
-/

/-- C1: for every registry state and model identifier, `getForModel` returns
the first adapter in registration order whose provider is enabled and whose
`supportsModel` is true, and returns nothing when no such adapter exists; in
particular a disabled provider is never returned and the first-registered
enabled provider wins a tie. -/
theorem getForModel_first_enabled_supporting (r : Registry) (modelId : String) :
    (∀ a, Registry.getForModel r modelId = some a →
        a.config.enabled = true ∧ supportsModel a.config modelId = true ∧
        ∃ pre post, r = pre ++ a :: post ∧
          ∀ b ∈ pre, b.config.enabled = false ∨ supportsModel b.config modelId = false) ∧
    (Registry.getForModel r modelId = none ↔
        ∀ a ∈ r, a.config.enabled = false ∨ supportsModel a.config modelId = false) := by
  constructor
  · intro a h
    unfold Registry.getForModel at h
    obtain ⟨hpa, pre, post, heq, hpre⟩ :=
      find?_spec_first (fun a => a.config.enabled && supportsModel a.config modelId) r a h
    rw [Bool.and_eq_true] at hpa
    refine ⟨hpa.1, hpa.2, pre, post, heq, ?_⟩
    intro b hb
    have := hpre b hb
    rcases hb' : b.config.enabled with _ | _
    · exact Or.inl rfl
    · right
      rw [hb'] at this
      simpa using this
  · rw [Registry.getForModel, List.find?_eq_none]
    constructor
    · intro h a ha
      have := h a ha
      rcases hb' : a.config.enabled with _ | _
      · exact Or.inl rfl
      · right
        rw [hb'] at this
        simpa using this
    · intro h a ha
      rcases h a ha with h' | h' <;> simp [h']

/-- Witness for C1 at a concrete two-provider registry where both enabled
providers expose model id `x`: the first-registered adapter is returned. -/
theorem getForModel_first_enabled_supporting_witness :
    Registry.getForModel
      [⟨{ id := "provA", models := [{ id := "x", enabled := true }], enabled := true }⟩,
       ⟨{ id := "provB", models := [{ id := "x", enabled := true }], enabled := true }⟩] "x" =
      some ⟨{ id := "provA", models := [{ id := "x", enabled := true }], enabled := true }⟩ ∧
    (⟨{ id := "provA", models := [{ id := "x", enabled := true }], enabled := true }⟩ :
        ProviderAdapter).config.enabled = true ∧
    supportsModel ({ id := "provA", models := [{ id := "x", enabled := true }], enabled := true } :
        ProviderConfig) "x" = true ∧
    ∃ pre post,
      ([⟨{ id := "provA", models := [{ id := "x", enabled := true }], enabled := true }⟩,
        ⟨{ id := "provB", models := [{ id := "x", enabled := true }], enabled := true }⟩] :
          Registry) =
        pre ++ (⟨{ id := "provA", models := [{ id := "x", enabled := true }], enabled := true }⟩ :
          ProviderAdapter) :: post ∧
      ∀ b ∈ pre, b.config.enabled = false ∨ supportsModel b.config "x" = false := by
  refine ⟨by decide, ?_⟩
  exact (getForModel_first_enabled_supporting
    [⟨{ id := "provA", models := [{ id := "x", enabled := true }], enabled := true }⟩,
     ⟨{ id := "provB", models := [{ id := "x", enabled := true }], enabled := true }⟩] "x").1
    _ (by decide)

/-- C4: `supportsModel` is true exactly when some enabled model's native id
or alias equals the requested identifier, `getModelConfig` returns such a
model exactly in that case, and a disabled model is never matched. -/
theorem supportsModel_getModelConfig_enabled_only (cfg : ProviderConfig) (modelId : String) :
    (supportsModel cfg modelId = true ↔
        ∃ m ∈ cfg.models, m.enabled = true ∧ (m.id = modelId ∨ m.aliasId = some modelId)) ∧
    (∀ m, getModelConfig cfg modelId = some m →
        m ∈ cfg.models ∧ m.enabled = true ∧ (m.id = modelId ∨ m.aliasId = some modelId)) ∧
    (supportsModel cfg modelId = true ↔ (getModelConfig cfg modelId).isSome = true) := by
  refine ⟨?_, ?_, ?_⟩
  · rw [supportsModel, List.any_eq_true]
    constructor
    · rintro ⟨m, hm, hp⟩
      exact ⟨m, hm, (modelMatches_iff modelId m).mp hp⟩
    · rintro ⟨m, hm, hp⟩
      exact ⟨m, hm, (modelMatches_iff modelId m).mpr hp⟩
  · intro m h
    refine ⟨List.mem_of_find?_eq_some h, ?_⟩
    exact (modelMatches_iff modelId m).mp (List.find?_some h)
  · rw [supportsModel, getModelConfig, List.find?_isSome, List.any_eq_true]

/-- Witness for C4 at a concrete provider config holding one enabled aliased
model and one disabled model: the enabled model is matched by id and by
alias, and the disabled model's id is not matched. -/
theorem supportsModel_getModelConfig_enabled_only_witness :
    (supportsModel
        { id := "p", enabled := true
          models := [{ id := "m-native", aliasId := some "m-alias", enabled := true },
                     { id := "m-off", enabled := false }] } "m-alias" = true ↔
      ∃ m ∈ [({ id := "m-native", aliasId := some "m-alias", enabled := true } : ModelConfig),
             { id := "m-off", enabled := false }],
        m.enabled = true ∧ (m.id = "m-alias" ∨ m.aliasId = some "m-alias")) ∧
    supportsModel
      { id := "p", enabled := true
        models := [{ id := "m-native", aliasId := some "m-alias", enabled := true },
                   { id := "m-off", enabled := false }] } "m-native" = true ∧
    supportsModel
      { id := "p", enabled := true
        models := [{ id := "m-native", aliasId := some "m-alias", enabled := true },
                   { id := "m-off", enabled := false }] } "m-off" = false ∧
    ({ id := "m-native", aliasId := some "m-alias", enabled := true } : ModelConfig) ∈
        [({ id := "m-native", aliasId := some "m-alias", enabled := true } : ModelConfig),
         { id := "m-off", enabled := false }] ∧
      ({ id := "m-native", aliasId := some "m-alias", enabled := true } : ModelConfig).enabled
          = true ∧
      (({ id := "m-native", aliasId := some "m-alias", enabled := true } : ModelConfig).id
          = "m-alias" ∨
        ({ id := "m-native", aliasId := some "m-alias", enabled := true } : ModelConfig).aliasId
          = some "m-alias") := by
  refine ⟨(supportsModel_getModelConfig_enabled_only _ "m-alias").1, by decide, by decide, ?_⟩
  exact (supportsModel_getModelConfig_enabled_only
    { id := "p", enabled := true
      models := [{ id := "m-native", aliasId := some "m-alias", enabled := true },
                 { id := "m-off", enabled := false }] } "m-alias").2.1 _ (by decide)

/-- C3 (code bug): `updateModels` and `addModels` are declared `boolean` in
the `ProviderRegistry` interface but the class implementation returns
`undefined` (`void`) both when the mutation is applied and when the provider
is unknown, while `setProviderEnabled` and `setModelEnabled` do return the
claimed boolean flags; the dedup-by-native-id append of `addModels` itself
behaves as claimed. -/
theorem updateModels_addModels_return_undefined :
    (Registry.updateModels
        [⟨{ id := "p1", models := [{ id := "m1", enabled := true }], enabled := true }⟩]
        "p1" [{ id := "m2", enabled := true }]).2 = none ∧
    (Registry.updateModels
        [⟨{ id := "p1", models := [{ id := "m1", enabled := true }], enabled := true }⟩]
        "nope" []).2 = none ∧
    (Registry.addModels
        [⟨{ id := "p1", models := [{ id := "m1", enabled := true }], enabled := true }⟩]
        "nope" [{ id := "m2", enabled := true }]).2 = none ∧
    ((Registry.updateModels
        [⟨{ id := "p1", models := [{ id := "m1", enabled := true }], enabled := true }⟩]
        "p1" [{ id := "m2", enabled := true }]).1.get "p1").map
          (fun a => a.config.models) = some [{ id := "m2", enabled := true }] ∧
    ((Registry.addModels
        [⟨{ id := "p1", models := [{ id := "m1", enabled := true }], enabled := true }⟩]
        "p1" [{ id := "m1", aliasId := some "other-alias", enabled := false },
              { id := "m3", enabled := true }]).1.get "p1").map
          (fun a => a.config.models) =
        some [{ id := "m1", enabled := true }, { id := "m3", enabled := true }] ∧
    (Registry.setProviderEnabled
        [⟨{ id := "p1", models := [{ id := "m1", enabled := true }], enabled := true }⟩]
        "p1" false).2 = some true ∧
    (Registry.setProviderEnabled
        [⟨{ id := "p1", models := [{ id := "m1", enabled := true }], enabled := true }⟩]
        "nope" false).2 = some false ∧
    (Registry.setModelEnabled
        [⟨{ id := "p1", models := [{ id := "m1", enabled := true }], enabled := true }⟩]
        "p1" "missing-model" false).2 = some false := by
  decide

/-- C5 counterexample: the claim's requirement that every non-error-shaped
input (including `Error` exception values) be stringified with type
`unknown_error` is false — both the base and the OpenAI `normalizeError` map
an `Error` instance to its own message with type `api_error`, and the base
implementation never inspects the error shape, stringifying an error-shaped
object instead of copying its fields. -/
theorem normalizeError_claim_false :
    ¬ claimC5Spec openaiNormalizeError ∧ ¬ claimC5Spec baseNormalizeError ∧
    openaiNormalizeError (.exnError "boom") =
      { message := "boom", type := "api_error", code := none } ∧
    baseNormalizeError (.errObj (some "m") (some "t") (some "c")) =
      { message := "[object Object]", type := "unknown_error", code := none } := by
  refine ⟨fun h => ?_, fun h => ?_, rfl, rfl⟩
  · have := h (.exnError "boom")
    revert this
    decide
  · have := h (.errObj (some "m") (some "t") (some "c"))
    revert this
    simp only [claimC5Spec]
    decide

/-- C5 (amended): `normalizeError` is total; the OpenAI adapter copies the
fields of an error-shaped input through with `message` defaulting to
`Unknown error`, `type` to `api_error` and `code` to `null`; in both the base
and the OpenAI variants an `Error` exception value maps to its own message
with type `api_error`, and any other value is stringified with type
`unknown_error`; the base variant does not inspect the error shape, so it
also stringifies error-shaped objects (as `[object Object]`, type
`unknown_error`). -/
theorem normalizeError_amended (e : ErrVal) :
    (openaiNormalizeError e =
      match e with
      | .errObj m t c => { message := m.getD "Unknown error", type := t.getD "api_error", code := c }
      | .exnError msg => { message := msg, type := "api_error", code := none }
      | .otherVal s => { message := s, type := "unknown_error", code := none }) ∧
    (baseNormalizeError e =
      match e with
      | .exnError msg => { message := msg, type := "api_error", code := none }
      | e' => { message := jsStringOf e', type := "unknown_error", code := none }) := by
  cases e <;> simp [openaiNormalizeError, baseNormalizeError, jsStringOf]

/-- C10: the Anthropic `transformRequest` defaults an absent `max_tokens` to
4096 and passes a present value through unchanged. -/
theorem anthropic_max_tokens_default (cfg : ProviderConfig) (req : OpenAIRequest) :
    (req.max_tokens = none → (anthropicTransformRequest cfg req).max_tokens = 4096) ∧
    (∀ v, req.max_tokens = some v → (anthropicTransformRequest cfg req).max_tokens = v) := by
  constructor
  · intro h; simp [anthropicTransformRequest, h]
  · intro v h; simp [anthropicTransformRequest, h]

/-- Witness for C10 on concrete requests with absent and with present
`max_tokens`. -/
theorem anthropic_max_tokens_default_witness :
    (anthropicTransformRequest { id := "anthropic", models := [], enabled := true }
      { model := "claude-3-opus", messages := [] }).max_tokens = 4096 ∧
    (anthropicTransformRequest { id := "anthropic", models := [], enabled := true }
      { model := "claude-3-opus", messages := [], max_tokens := some 77 }).max_tokens = 77 := by
  constructor
  · exact (anthropic_max_tokens_default _ _).1 rfl
  · exact (anthropic_max_tokens_default _ _).2 77 rfl

/-- Anthropic text-delta-bearing event: a `content_block_delta` event whose
delta is tagged `text_delta`. -/
def anthTextDeltaEvent (p : AnthropicStreamPayload) : Prop :=
  p.type = "content_block_delta" ∧ ∃ d, p.delta = some d ∧ d.dtype = "text_delta"

instance (p : AnthropicStreamPayload) : Decidable (anthTextDeltaEvent p) := by
  unfold anthTextDeltaEvent
  exact inferInstance

/-- Anthropic terminal event: a `message_stop` event. -/
def anthTerminalEvent (p : AnthropicStreamPayload) : Prop :=
  p.type = "message_stop"

instance (p : AnthropicStreamPayload) : Decidable (anthTerminalEvent p) := by
  unfold anthTerminalEvent
  exact inferInstance

/-- Text delta borne by a Google stream payload: the first candidate's first
part's text, when present and nonempty (JavaScript truthiness makes an empty
string bear no text). -/
def googleTextDelta (p : GoogleStreamPayload) : Option String :=
  match googleFirstText p with
  | some t => if t == "" then none else some t
  | none => none

/-- Google terminal event: the first candidate carries a nonempty
`finishReason`. -/
def googleTerminalEvent (p : GoogleStreamPayload) : Prop :=
  ∃ c, p.candidates.head? = some c ∧ ∃ r, c.finishReason = some r ∧ r ≠ ""

instance (p : GoogleStreamPayload) : Decidable (googleTerminalEvent p) := by
  unfold googleTerminalEvent
  rcases p.candidates.head? with _ | c
  · exact isFalse (by simp)
  · rcases h : c.finishReason with _ | r
    · exact isFalse (by simp [h])
    · exact decidable_of_iff (r ≠ "") (by simp [h])

/-- The Anthropic guard `data.type === 'content_block_delta' &&
data.delta?.type === 'text_delta'` holds exactly on text-delta-bearing
events. -/
theorem anthGuard_iff (p : AnthropicStreamPayload) :
    (p.type == "content_block_delta" &&
        ((p.delta.map (fun d => d.dtype)).getD "" == "text_delta")) = true ↔
      anthTextDeltaEvent p := by
  unfold anthTextDeltaEvent
  rcases hd : p.delta with _ | d
  · simp [hd]
  · simp [hd]

/-- Case analysis of the Google `transformStreamChunk` on a decoded payload:
a nonempty text delta yields the text chunk, otherwise control falls through
to the finish-reason branch. -/
theorem googleTransformStreamChunk_cases (now : Nat) (cfg : ProviderConfig)
    (req : Option OpenAIRequest) (p : GoogleStreamPayload) :
    googleTransformStreamChunk now cfg req (.payload p) =
      match googleTextDelta p with
      | some t =>
        some { id := "google-" ++ Nat.repr now, created := now
               model := googleResolveModelId cfg req
               choices := [{ index := 0, delta := { content := some t }
                             finish_reason := none }] }
      | none => googleFinishFallThrough now (googleResolveModelId cfg req) p := by
  simp only [googleTransformStreamChunk, googleTextDelta]
  rcases ht : googleFirstText p with _ | t
  · simp
  · by_cases hte : t = ""
    · subst hte; simp
    · simp [hte]

/-- C6: for the Anthropic and Google adapters, `transformStreamChunk`
returns a non-null unified chunk exactly on text-delta-bearing events (the
chunk's delta carrying that text) and terminal events (the chunk carrying a
finish reason); every other well-formed event and every malformed payload
yields null. -/
theorem transformStreamChunk_text_or_terminal (now : Nat) (cfg : ProviderConfig)
    (req : Option OpenAIRequest) :
    (∀ i : AnthropicChunkInput,
      ((anthropicTransformStreamChunk now i).isSome = true ↔
        ∃ p, i = .payload p ∧ (anthTextDeltaEvent p ∨ anthTerminalEvent p))) ∧
    (∀ p d, p.delta = some d → anthTextDeltaEvent p →
      anthropicTransformStreamChunk now (.payload p) =
        some { id := (p.index.map Nat.repr).getD "chunk", created := now, model := ""
               choices := [{ index := 0, delta := { content := d.text }
                             finish_reason := none }] }) ∧
    (∀ p, ¬ anthTextDeltaEvent p → anthTerminalEvent p →
      anthropicTransformStreamChunk now (.payload p) =
        some { id := "done", created := now, model := ""
               choices := [{ index := 0, delta := {}, finish_reason := some "stop" }] }) ∧
    (∀ i : GoogleChunkInput,
      ((googleTransformStreamChunk now cfg req i).isSome = true ↔
        ∃ p, i = .payload p ∧ (googleTextDelta p ≠ none ∨ googleTerminalEvent p))) ∧
    (∀ p t, googleTextDelta p = some t →
      googleTransformStreamChunk now cfg req (.payload p) =
        some { id := "google-" ++ Nat.repr now, created := now
               model := googleResolveModelId cfg req
               choices := [{ index := 0, delta := { content := some t }
                             finish_reason := none }] }) ∧
    (∀ p c, googleTextDelta p = none → p.candidates.head? = some c → googleTerminalEvent p →
      googleTransformStreamChunk now cfg req (.payload p) =
        some { id := "google-" ++ Nat.repr now, created := now
               model := googleResolveModelId cfg req
               choices := [{ index := 0, delta := {}
                             finish_reason := googleMapFinishReason c.finishReason }] }) := by
  have googleFall : ∀ p : GoogleStreamPayload,
      ((googleFinishFallThrough now (googleResolveModelId cfg req) p).isSome = true ↔
        googleTerminalEvent p) := by
    intro p
    unfold googleFinishFallThrough googleTerminalEvent
    rcases hc : p.candidates.head? with _ | c
    · simp
    · rcases hr : c.finishReason with _ | r
      · simp [hr]
      · by_cases hre : r = ""
        · subst hre; simp [hr]
        · simp [hr, hre]
  refine ⟨?_, ?_, ?_, ?_, ?_, ?_⟩
  · intro i
    cases i with
    | done => simp [anthropicTransformStreamChunk]
    | malformed => simp [anthropicTransformStreamChunk]
    | payload p =>
      simp only [anthropicTransformStreamChunk]
      by_cases hg : (p.type == "content_block_delta" &&
          ((p.delta.map (fun d => d.dtype)).getD "" == "text_delta")) = true
      · simp only [hg, if_pos]
        simp only [Option.isSome_some, true_iff]
        exact ⟨p, rfl, Or.inl ((anthGuard_iff p).mp hg)⟩
      · rw [if_neg hg]
        by_cases hs : p.type == "message_stop"
        · simp only [hs, if_pos, Option.isSome_some, true_iff]
          exact ⟨p, rfl, Or.inr (by simpa [anthTerminalEvent] using hs)⟩
        · rw [if_neg hs]
          simp only [Option.isSome_none, Bool.false_eq_true, false_iff]
          rintro ⟨q, hq, hcase⟩
          cases hq
          rcases hcase with h | h
          · exact hg ((anthGuard_iff p).mpr h)
          · exact hs (by simpa [anthTerminalEvent] using h)
  · intro p d hd htd
    have hg := (anthGuard_iff p).mpr htd
    simp only [anthropicTransformStreamChunk]
    rw [if_pos hg]
    simp [hd]
  · intro p hntd hterm
    have hg : ¬ (p.type == "content_block_delta" &&
        ((p.delta.map (fun d => d.dtype)).getD "" == "text_delta")) = true :=
      fun h => hntd ((anthGuard_iff p).mp h)
    simp only [anthropicTransformStreamChunk]
    rw [if_neg hg, if_pos (by simpa [anthTerminalEvent] using hterm)]
  · intro i
    cases i with
    | malformed => simp [googleTransformStreamChunk]
    | payload p =>
      rw [googleTransformStreamChunk_cases]
      rcases htd : googleTextDelta p with _ | t
      · rw [googleFall p]
        constructor
        · intro h
          exact ⟨p, rfl, Or.inr h⟩
        · rintro ⟨q, hq, hcase⟩
          injection hq with hpq
          subst hpq
          rcases hcase with h | h
          · exact absurd htd h
          · exact h
      · simp only [Option.isSome_some, true_iff]
        exact ⟨p, rfl, Or.inl (by simp [htd])⟩
  · intro p t h
    rw [googleTransformStreamChunk_cases, h]
  · intro p c hnone hc hterm
    have hfall : googleFinishFallThrough now (googleResolveModelId cfg req) p =
        some { id := "google-" ++ Nat.repr now, created := now
               model := googleResolveModelId cfg req
               choices := [{ index := 0, delta := {}
                             finish_reason := googleMapFinishReason c.finishReason }] } := by
      obtain ⟨c', hc', r, hr, hre⟩ := hterm
      rw [hc] at hc'
      cases hc'
      simp only [googleFinishFallThrough, hc]
      rw [if_neg (by simp [hr, hre])]
    rw [googleTransformStreamChunk_cases, hnone]
    exact hfall

/-- Concrete Anthropic text-delta stream event used by witnesses. -/
def anthTextPayloadW : AnthropicStreamPayload :=
  { type := "content_block_delta", delta := some { dtype := "text_delta", text := some "Hi" }
    index := some 0 }

/-- Concrete Anthropic terminal stream event used by witnesses. -/
def anthStopPayloadW : AnthropicStreamPayload := { type := "message_stop" }

/-- Concrete Google text-delta stream payload used by witnesses. -/
def googleTextPayloadW : GoogleStreamPayload :=
  { candidates := [{ content := some { parts := [{ text := some "Hi" }] } }] }

/-- Concrete Google terminal stream payload used by witnesses. -/
def googleStopPayloadW : GoogleStreamPayload :=
  { candidates := [{ finishReason := some "STOP" }] }

/-- Concrete provider config (empty model list) used by witnesses. -/
def emptyModelsCfgW : ProviderConfig := { id := "w", models := [], enabled := true }

/-- Witness for C6 at concrete Anthropic and Google stream events: a text
delta yields a content chunk, a terminal event yields a finish chunk. -/
theorem transformStreamChunk_text_or_terminal_witness :
    anthropicTransformStreamChunk 5 (.payload anthTextPayloadW) =
      some { id := "0", created := 5, model := ""
             choices := [{ index := 0, delta := { content := some "Hi" }
                           finish_reason := none }] } ∧
    anthropicTransformStreamChunk 5 (.payload anthStopPayloadW) =
      some { id := "done", created := 5, model := ""
             choices := [{ index := 0, delta := {}, finish_reason := some "stop" }] } ∧
    googleTransformStreamChunk 5 emptyModelsCfgW none (.payload googleTextPayloadW) =
      some { id := "google-5", created := 5, model := "gemini-1.5-flash"
             choices := [{ index := 0, delta := { content := some "Hi" }
                           finish_reason := none }] } ∧
    googleTransformStreamChunk 5 emptyModelsCfgW none (.payload googleStopPayloadW) =
      some { id := "google-5", created := 5, model := "gemini-1.5-flash"
             choices := [{ index := 0, delta := {}, finish_reason := some "stop" }] } := by
  refine ⟨?_, ?_, ?_, ?_⟩
  · have h := (transformStreamChunk_text_or_terminal 5 emptyModelsCfgW none).2.1
      anthTextPayloadW { dtype := "text_delta", text := some "Hi" } rfl (by decide)
    simpa using h
  · have h := (transformStreamChunk_text_or_terminal 5 emptyModelsCfgW none).2.2.1
      anthStopPayloadW (by decide) (by decide)
    simpa using h
  · have h := (transformStreamChunk_text_or_terminal 5 emptyModelsCfgW none).2.2.2.2.1
      googleTextPayloadW "Hi" (by decide)
    simpa [googleResolveModelId, getModelConfig, emptyModelsCfgW] using h
  · have h := (transformStreamChunk_text_or_terminal 5 emptyModelsCfgW none).2.2.2.2.2
      googleStopPayloadW { finishReason := some "STOP" } (by decide) (by decide) (by decide)
    simpa [googleResolveModelId, getModelConfig, emptyModelsCfgW, googleMapFinishReason,
      googleStopPayloadW] using h

/-- Concrete request whose only system message has empty content, used for
the C7 counterexample. -/
def emptySystemReqW : OpenAIRequest :=
  { model := "claude-3-opus"
    messages := [{ role := .system, content := some "" }, { role := .user, content := some "hi" }] }

/-- C7 counterexample: on a request carrying a system message with empty
content, the newline-join of the system contents is the empty string and the
Anthropic `transformRequest` omits the `system` field entirely (the JS
`join('\n') || undefined` turns an empty join into `undefined`), so the
claimed placement of the joined contents into the system field fails. -/
theorem anthropic_system_field_claim_false :
    (emptySystemReqW.messages.filter (fun m => m.role == .system)).length > 0 ∧
    systemJoin emptySystemReqW.messages = "" ∧
    (anthropicTransformRequest emptyModelsCfgW emptySystemReqW).system = none ∧
    (anthropicTransformRequest emptyModelsCfgW emptySystemReqW).system ≠
      some (systemJoin emptySystemReqW.messages) := by
  refine ⟨by decide, by decide, by decide, by decide⟩

/-- C7 (amended): the Anthropic `transformRequest` places the newline-joined
system contents into the top-level `system` field exactly when the joined
string is nonempty (omitting the field when every system content is empty or
no system message exists); the Google `transformRequest` carries the joined
contents in `systemInstruction` exactly when at least one system-role
message exists; and both map the remaining messages in original order, with
`assistant` mapped to the provider's assistant role and every other
remaining role (`user`, and also `tool`) mapped to `user`, null contents
becoming empty strings. -/
theorem system_concat_and_role_mapping (cfg : ProviderConfig) (req : OpenAIRequest) :
    ((anthropicTransformRequest cfg req).system = some (systemJoin req.messages) ↔
        systemJoin req.messages ≠ "") ∧
    ((anthropicTransformRequest cfg req).system = none ↔ systemJoin req.messages = "") ∧
    ((googleTransformRequest req).systemInstruction =
          some [{ text := systemJoin req.messages }] ↔
        (req.messages.filter (fun m => m.role == .system)).length > 0) ∧
    ((googleTransformRequest req).systemInstruction = none ↔
        (req.messages.filter (fun m => m.role == .system)).length = 0) ∧
    (∀ i : Nat, (anthropicTransformRequest cfg req).messages[i]? =
        ((req.messages.filter (fun m => m.role != .system))[i]?).map (fun m =>
          { role := if m.role == .assistant then ARole.assistant else ARole.user
            content := m.content.getD "" })) ∧
    (∀ i : Nat, (googleTransformRequest req).contents[i]? =
        ((req.messages.filter (fun m => m.role != .system))[i]?).map (fun m =>
          { role := if m.role == .assistant then GRole.model else GRole.user
            parts := [{ text := m.content.getD "" }] })) := by
  refine ⟨?_, ?_, ?_, ?_, ?_, ?_⟩
  · by_cases h : systemJoin req.messages = ""
    · have hb : (systemJoin req.messages == "") = true := by simpa using h
      simp [anthropicTransformRequest, hb, h]
    · have hb : (systemJoin req.messages == "") = false := by simpa using h
      simp [anthropicTransformRequest, hb, h]
  · by_cases h : systemJoin req.messages = ""
    · have hb : (systemJoin req.messages == "") = true := by simpa using h
      simp [anthropicTransformRequest, hb, h]
    · have hb : (systemJoin req.messages == "") = false := by simpa using h
      simp [anthropicTransformRequest, hb, h]
  · by_cases h : (req.messages.filter (fun m => m.role == .system)).length > 0
    · simp [googleTransformRequest, h]
    · simp [googleTransformRequest, h]
  · by_cases h : (req.messages.filter (fun m => m.role == .system)).length > 0
    · have hne : (req.messages.filter (fun m => m.role == .system)).length ≠ 0 := by omega
      simp [googleTransformRequest, h, hne]
    · have heq : (req.messages.filter (fun m => m.role == .system)).length = 0 := by omega
      simp [googleTransformRequest, h, heq]
  · intro i
    simp [anthropicTransformRequest, List.getElem?_map]
  · intro i
    simp [googleTransformRequest, List.getElem?_map]

/-!
Fold lemmas for the stream accumulators.
-/

theorem StreamAcc.empty_append (a : StreamAcc) : emptyAcc.append a = a := by
  simp [StreamAcc.append, emptyAcc]

theorem StreamAcc.append_empty (a : StreamAcc) : a.append emptyAcc = a := by
  simp [StreamAcc.append, emptyAcc]

theorem StreamAcc.append_assoc (a b c : StreamAcc) :
    (a.append b).append c = a.append (b.append c) := by
  simp [StreamAcc.append, Nat.add_assoc]

/-- Pulling a nonempty initial accumulator out of an append-fold. -/
theorem foldl_acc_shift {α : Type _} (f : α → StreamAcc) (l : List α) (a : StreamAcc) :
    l.foldl (fun acc x => acc.append (f x)) a =
      a.append (l.foldl (fun acc x => acc.append (f x)) emptyAcc) := by
  induction l generalizing a with
  | nil => simp [StreamAcc.append_empty]
  | cons x xs ih =>
    simp only [List.foldl_cons]
    rw [ih (a.append (f x)), ih (emptyAcc.append (f x)), StreamAcc.empty_append,
      StreamAcc.append_assoc]

theorem StreamAcc.mem_payloads_append (a b : StreamAcc) (x : String) :
    x ∈ (a.append b).payloads ↔ x ∈ a.payloads ∨ x ∈ b.payloads := by
  simp [StreamAcc.append]

theorem StreamAcc.mem_writes_append (a b : StreamAcc) (w : StreamWrite) :
    w ∈ (a.append b).writes ↔ w ∈ a.writes ∨ w ∈ b.writes := by
  simp [StreamAcc.append]

/-- Payload membership in an append-fold over `emptyAcc`. -/
theorem mem_payloads_foldl {α : Type _} (f : α → StreamAcc) (l : List α) (x : String) :
    x ∈ (l.foldl (fun acc e => acc.append (f e)) emptyAcc).payloads ↔
      ∃ e ∈ l, x ∈ (f e).payloads := by
  induction l with
  | nil => simp [emptyAcc]
  | cons y ys ih =>
    simp only [List.foldl_cons]
    rw [foldl_acc_shift, StreamAcc.empty_append, StreamAcc.mem_payloads_append, ih]
    simp only [List.mem_cons]
    constructor
    · rintro (h | ⟨e, he, hx⟩)
      · exact ⟨y, Or.inl rfl, h⟩
      · exact ⟨e, Or.inr he, hx⟩
    · rintro ⟨e, (rfl | he), hx⟩
      · exact Or.inl hx
      · exact Or.inr ⟨e, he, hx⟩

/-- Write membership in an append-fold over `emptyAcc`. -/
theorem mem_writes_foldl {α : Type _} (f : α → StreamAcc) (l : List α) (w : StreamWrite) :
    w ∈ (l.foldl (fun acc e => acc.append (f e)) emptyAcc).writes ↔
      ∃ e ∈ l, w ∈ (f e).writes := by
  induction l with
  | nil => simp [emptyAcc]
  | cons y ys ih =>
    simp only [List.foldl_cons]
    rw [foldl_acc_shift, StreamAcc.empty_append, StreamAcc.mem_writes_append, ih]
    simp only [List.mem_cons]
    constructor
    · rintro (h | ⟨e, he, hx⟩)
      · exact ⟨y, Or.inl rfl, h⟩
      · exact ⟨e, Or.inr he, hx⟩
    · rintro ⟨e, (rfl | he), hx⟩
      · exact Or.inl hx
      · exact Or.inr ⟨e, he, hx⟩

/-- Payloads contributed by one main-loop event payload: exactly the payload
itself, unless it is the `[DONE]` sentinel. -/
theorem processMainPayload_payloads (tsc : String → Option OpenAIStreamChunk) (p x : String) :
    x ∈ (processMainPayload tsc p).payloads ↔ x = p ∧ p ≠ "[DONE]" := by
  unfold processMainPayload
  by_cases hd : p = "[DONE]"
  · subst hd; simp
  · have hb : (p == "[DONE]") = false := by simpa using hd
    rw [hb]
    simp only [Bool.false_eq_true, if_false]
    cases tsc p <;> simp [hd]

/-- The `[DONE]` write of one main-loop event payload occurs exactly for the
sentinel. -/
theorem processMainPayload_done (tsc : String → Option OpenAIStreamChunk) (p : String) :
    StreamWrite.done ∈ (processMainPayload tsc p).writes ↔ p = "[DONE]" := by
  unfold processMainPayload
  by_cases hd : p = "[DONE]"
  · subst hd; simp
  · have hb : (p == "[DONE]") = false := by simpa using hd
    rw [hb]
    simp only [Bool.false_eq_true, if_false]
    cases tsc p <;> simp [hd]

/-- Payloads contributed by one trailing-flush event payload: exactly the
payload itself, unless it is the `[DONE]` sentinel. -/
theorem processTrailingPayload_payloads (tsc : String → Option OpenAIStreamChunk) (p x : String) :
    x ∈ (processTrailingPayload tsc p).payloads ↔ x = p ∧ p ≠ "[DONE]" := by
  unfold processTrailingPayload
  by_cases hd : p = "[DONE]"
  · subst hd; simp [emptyAcc]
  · have hb : (p == "[DONE]") = false := by simpa using hd
    rw [hb]
    simp only [Bool.false_eq_true, if_false]
    cases tsc p <;> simp [hd]

/-- The trailing flush never writes the `[DONE]` sentinel. -/
theorem processTrailingPayload_no_done (tsc : String → Option OpenAIStreamChunk) (p : String) :
    StreamWrite.done ∉ (processTrailingPayload tsc p).writes := by
  unfold processTrailingPayload
  by_cases hd : p = "[DONE]"
  · subst hd; simp [emptyAcc]
  · have hb : (p == "[DONE]") = false := by simpa using hd
    rw [hb]
    simp only [Bool.false_eq_true, if_false]
    cases tsc p <;> simp

/-- C8 counterexample: the handler's SSE parsing does not hand only
`data:`-joined payloads to the transform — a block with no `data:` lines is
handed verbatim (trimmed) as a fallback payload — and a `[DONE]` payload
appearing in the trailing partial block is dropped rather than written
verbatim to the client. -/
theorem sse_parsing_claim_false :
    (processStream (fun _ => none) "event: ping\n\n").payloads = ["event: ping"] ∧
    sseDataLines "event: ping" = [] ∧
    (jsStartsWith "event: ping" "data:") = false ∧
    (sseSplit "data: [DONE]").2 = "data: [DONE]" ∧
    parseSseEventData "data: [DONE]" = ["[DONE]"] ∧
    (processStream (fun _ => none) "data: [DONE]").writes = [] := by
  refine ⟨by decide, by decide, by decide, by decide, by decide, by decide⟩

/-- C8 (amended): within each SSE block, payloads handed onward are the
newline-join of the block's `data:` lines when any exist, and otherwise the
whitespace-trimmed block itself (a fallback for providers that omit the
`data:` framing) when nonempty; the `[DONE]` payload is never handed to the
adapter's chunk transform; a `[DONE]` payload of a complete
(double-newline-terminated) block is written to the client verbatim, but a
`[DONE]` payload of the trailing partial block is dropped without being
written; and the trailing partial block left when the upstream closes
without a final separator is still parsed with the same per-block parsing,
its non-`[DONE]` payloads being transformed like those of complete blocks. -/
theorem sse_block_parsing_amended (tsc : String → Option OpenAIStreamChunk) (s : String) :
    (∀ block p, p ∈ parseSseEventData block →
      (sseDataLines block ≠ [] ∧ p = String.intercalate "\n" (sseDataLines block)) ∨
      (sseDataLines block = [] ∧ p = jsTrim block ∧ p ≠ "")) ∧
    ("[DONE]" ∉ (processStream tsc s).payloads) ∧
    (∀ p ∈ (processStream tsc s).payloads,
      ∃ b, (b ∈ (sseSplit s).1 ∨ b = (sseSplit s).2) ∧ p ∈ parseSseEventData b) ∧
    (∀ b ∈ (sseSplit s).1, "[DONE]" ∈ parseSseEventData b →
      StreamWrite.done ∈ (processStream tsc s).writes) ∧
    (StreamWrite.done ∉ (processTrailing tsc (sseSplit s).2).writes) ∧
    (∀ p ∈ parseSseEventData (sseSplit s).2, jsTrim (sseSplit s).2 ≠ "" → p ≠ "[DONE]" →
      p ∈ (processTrailing tsc (sseSplit s).2).payloads) := by
  have trailing_payloads : ∀ x, x ∈ (processTrailing tsc (sseSplit s).2).payloads ↔
      (jsTrim (sseSplit s).2 ≠ "" ∧
        ∃ p ∈ parseSseEventData (sseSplit s).2, x = p ∧ p ≠ "[DONE]") := by
    intro x
    unfold processTrailing
    by_cases ht : jsTrim (sseSplit s).2 = ""
    · have hb : (jsTrim (sseSplit s).2 == "") = true := by simpa using ht
      rw [hb]
      simp [emptyAcc, ht]
    · have hb : (jsTrim (sseSplit s).2 == "") = false := by simpa using ht
      rw [hb]
      simp only [Bool.false_eq_true, if_false]
      rw [mem_payloads_foldl]
      simp only [processTrailingPayload_payloads]
      constructor
      · rintro ⟨e, he, hx⟩
        exact ⟨ht, e, he, hx⟩
      · rintro ⟨_, e, he, hx⟩
        exact ⟨e, he, hx⟩
  have main_payloads : ∀ x, x ∈ (processMainBlocks tsc (sseSplit s).1).payloads ↔
      ∃ b ∈ (sseSplit s).1, ∃ p ∈ parseSseEventData b, x = p ∧ p ≠ "[DONE]" := by
    intro x
    unfold processMainBlocks processMainBlock
    rw [mem_payloads_foldl]
    constructor
    · rintro ⟨b, hb, hx⟩
      rw [mem_payloads_foldl] at hx
      obtain ⟨p, hp, hxp⟩ := hx
      rw [processMainPayload_payloads] at hxp
      exact ⟨b, hb, p, hp, hxp⟩
    · rintro ⟨b, hb, p, hp, hxp⟩
      refine ⟨b, hb, ?_⟩
      rw [mem_payloads_foldl]
      exact ⟨p, hp, (processMainPayload_payloads tsc p x).mpr hxp⟩
  refine ⟨?_, ?_, ?_, ?_, ?_, ?_⟩
  · intro block p hp
    unfold parseSseEventData at hp
    by_cases he : (sseDataLines block).isEmpty
    · rw [if_pos he] at hp
      have hnil : sseDataLines block = [] := List.isEmpty_iff.mp he
      by_cases hf : jsTrim block = ""
      · have hb : (jsTrim block == "") = true := by simpa using hf
        rw [hb] at hp
        simp at hp
      · have hb : (jsTrim block == "") = false := by simpa using hf
        rw [hb] at hp
        simp only [Bool.false_eq_true, if_false, List.mem_singleton] at hp
        exact Or.inr ⟨hnil, hp, by rw [hp]; exact hf⟩
    · rw [if_neg he] at hp
      simp only [List.mem_singleton] at hp
      exact Or.inl ⟨by simpa using he, hp⟩
  · unfold processStream
    simp only [StreamAcc.append, List.mem_append]
    rintro (h | h)
    · obtain ⟨b, _, p, _, heq, hne⟩ := (main_payloads "[DONE]").mp h
      exact hne heq.symm
    · obtain ⟨_, p, _, heq, hne⟩ := (trailing_payloads "[DONE]").mp h
      exact hne heq.symm
  · intro p hp
    unfold processStream at hp
    simp only [StreamAcc.append, List.mem_append] at hp
    rcases hp with h | h
    · obtain ⟨b, hb, q, hq, heq, _⟩ := (main_payloads p).mp h
      exact ⟨b, Or.inl hb, heq ▸ hq⟩
    · obtain ⟨_, q, hq, heq, _⟩ := (trailing_payloads p).mp h
      exact ⟨(sseSplit s).2, Or.inr rfl, heq ▸ hq⟩
  · intro b hb hdone
    unfold processStream
    simp only [StreamAcc.append, List.mem_append]
    left
    unfold processMainBlocks processMainBlock
    rw [mem_writes_foldl]
    refine ⟨b, hb, ?_⟩
    rw [mem_writes_foldl]
    exact ⟨"[DONE]", hdone, (processMainPayload_done tsc "[DONE]").mpr rfl⟩
  · unfold processTrailing
    by_cases ht : jsTrim (sseSplit s).2 = ""
    · have hb : (jsTrim (sseSplit s).2 == "") = true := by simpa using ht
      rw [hb]
      simp [emptyAcc]
    · have hb : (jsTrim (sseSplit s).2 == "") = false := by simpa using ht
      rw [hb]
      simp only [Bool.false_eq_true, if_false]
      rw [mem_writes_foldl]
      rintro ⟨e, _, hw⟩
      exact processTrailingPayload_no_done tsc e hw
  · intro p hp ht hne
    rw [trailing_payloads p]
    exact ⟨ht, p, hp, rfl, hne⟩

/-- Witness for C8's amended theorem at a concrete stream containing a
non-`data:` block, a complete `[DONE]` block and a trailing partial block. -/
theorem sse_block_parsing_amended_witness :
    ((sseDataLines "data: hi" ≠ [] ∧
        "hi" = String.intercalate "\n" (sseDataLines "data: hi")) ∨
      (sseDataLines "data: hi" = [] ∧ "hi" = jsTrim "data: hi" ∧ "hi" ≠ "")) ∧
    ("[DONE]" ∉ (processStream (fun _ => none) "event: x\n\ndata: [DONE]\n\ndata: hi").payloads) ∧
    (∃ b, (b ∈ (sseSplit "event: x\n\ndata: [DONE]\n\ndata: hi").1 ∨
        b = (sseSplit "event: x\n\ndata: [DONE]\n\ndata: hi").2) ∧
      "hi" ∈ parseSseEventData b) ∧
    StreamWrite.done ∈ (processStream (fun _ => none) "event: x\n\ndata: [DONE]\n\ndata: hi").writes ∧
    "hi" ∈ (processTrailing (fun _ => none) (sseSplit "event: x\n\ndata: [DONE]\n\ndata: hi").2).payloads := by
  have h := sse_block_parsing_amended (fun _ => none) "event: x\n\ndata: [DONE]\n\ndata: hi"
  refine ⟨h.1 "data: hi" "hi" (by decide), h.2.1, ?_, ?_, ?_⟩
  · exact h.2.2.1 "hi" (by decide)
  · exact h.2.2.2.1 "data: [DONE]" (by decide) (by decide)
  · exact h.2.2.2.2.2 "hi" (by decide) (by decide) (by decide)

/-- Concrete unified response used by witnesses: carries an upstream usage
field. -/
def respWithUsageW : OpenAIResponse :=
  { id := "r1", created := 9, model := "m"
    choices := [{ index := 0, message := { role := .assistant, content := some "Hello!" }
                  finish_reason := some "stop" }]
    usage := some { prompt_tokens := 11, completion_tokens := 22, total_tokens := 33 } }

/-- Concrete unified response used by witnesses: no usage field, a 6-character
first-choice content. -/
def respNoUsageW : OpenAIResponse :=
  { id := "r2", created := 9, model := "m"
    choices := [{ index := 0, message := { role := .assistant, content := some "Hello!" }
                  finish_reason := some "stop" }]
    usage := none }

/-- Concrete one-provider registry used by the orchestrator witnesses. -/
def chatRegistryW : Registry :=
  [⟨{ id := "prov", models := [{ id := "m", enabled := true }], enabled := true }⟩]

/-- C2 counterexample: a request whose model no enabled provider supports is
answered 404 with zero calls to the usage sink, refuting the claim that
`recordUsage` is called exactly once on every failure path. -/
theorem usage_accounting_claim_false :
    (chatCompletions (ν := Unit) [] (fun _ => none)
        (some { model := "nope", messages := [{ role := .user, content := some "hi" }] })
        (fun _ => "[]") (fun _ => respWithUsageW) (fun _ => none) baseNormalizeError 7
        (.exn (.otherVal "unused")) (.exn (.otherVal "unused"))).usageCalls = [] ∧
    (chatCompletions (ν := Unit) [] (fun _ => none)
        (some { model := "nope", messages := [{ role := .user, content := some "hi" }] })
        (fun _ => "[]") (fun _ => respWithUsageW) (fun _ => none) baseNormalizeError 7
        (.exn (.otherVal "unused")) (.exn (.otherVal "unused"))).response =
      .jsonError 404 { message := "Model not found: nope", type := "invalid_request_error"
                       code := some "model_not_found" } := by
  refine ⟨by decide, by decide⟩

/-- C2 (amended): the usage sink is called exactly once for every request
that passes validation, routing and the key lookup — on the success path and
on every subsequent failure path — and never on a request rejected before
upstream dispatch (invalid body, unknown model, missing key).  On the
non-streaming success path the recorded tokens come from the transformed
response's usage field when present and are otherwise estimated as
`ceil(chars/4)` of the serialized messages (input) and of the first choice's
content (output); post-dispatch failures record zero tokens; the streaming
success path records the input estimate and the per-chunk accumulated output
estimate. -/
theorem usage_accounting_amended {ν : Type} (r : Registry) (getApiKey : String → Option String)
    (rawBody : Option OpenAIRequest) (stringifyMessages : List OpenAIMessage → String)
    (tr : ν → OpenAIResponse) (tsc : String → Option OpenAIStreamChunk)
    (normalizeErr : ErrVal → ErrorBody) (duration : Nat)
    (nsOutcome : NonStreamOutcome ν) (sOutcome : StreamOutcome) :
    (∀ e, resolveChat r getApiKey rawBody = .error e →
      (chatCompletions r getApiKey rawBody stringifyMessages tr tsc normalizeErr duration
          nsOutcome sOutcome).usageCalls = []) ∧
    (∀ adapter key b, resolveChat r getApiKey rawBody = .ok (adapter, key, b) →
      (chatCompletions r getApiKey rawBody stringifyMessages tr tsc normalizeErr duration
          nsOutcome sOutcome).usageCalls.length = 1) ∧
    (∀ adapter key b native, resolveChat r getApiKey rawBody = .ok (adapter, key, b) →
      b.stream.getD false = false → nsOutcome = .ok native →
      (chatCompletions r getApiKey rawBody stringifyMessages tr tsc normalizeErr duration
          nsOutcome sOutcome).usageCalls =
        [{ providerId := adapter.config.id, modelId := b.model
           inputTokens :=
             match (tr native).usage with
             | some u => u.prompt_tokens
             | none => estTokens (stringifyMessages b.messages).length
           outputTokens :=
             match (tr native).usage with
             | some u => u.completion_tokens
             | none => estTokens
                 (match (tr native).choices.head? with
                  | some c => (c.message.content.map String.length).getD 0
                  | none => 0)
           durationMs := duration, success := true, errorMessage := none }]) ∧
    (∀ adapter key b status msg, resolveChat r getApiKey rawBody = .ok (adapter, key, b) →
      b.stream.getD false = false → nsOutcome = .httpError status msg →
      (chatCompletions r getApiKey rawBody stringifyMessages tr tsc normalizeErr duration
          nsOutcome sOutcome).usageCalls =
        [{ providerId := adapter.config.id, modelId := b.model
           inputTokens := 0, outputTokens := 0
           durationMs := duration, success := false, errorMessage := msg }]) ∧
    (∀ adapter key b err, resolveChat r getApiKey rawBody = .ok (adapter, key, b) →
      b.stream.getD false = false → nsOutcome = .exn err →
      (chatCompletions r getApiKey rawBody stringifyMessages tr tsc normalizeErr duration
          nsOutcome sOutcome).usageCalls =
        [{ providerId := adapter.config.id, modelId := b.model
           inputTokens := 0, outputTokens := 0
           durationMs := duration, success := false
           errorMessage := some (jsStringOf err) }]) ∧
    (∀ adapter key b text, resolveChat r getApiKey rawBody = .ok (adapter, key, b) →
      b.stream.getD false = true → sOutcome = .ok text →
      (chatCompletions r getApiKey rawBody stringifyMessages tr tsc normalizeErr duration
          nsOutcome sOutcome).usageCalls =
        [{ providerId := adapter.config.id, modelId := b.model
           inputTokens := estTokens (stringifyMessages b.messages).length
           outputTokens := (processStream tsc text).tokens
           durationMs := duration, success := true, errorMessage := none }]) := by
  refine ⟨?_, ?_, ?_, ?_, ?_, ?_⟩
  · intro e he
    simp [chatCompletions, he]
  · intro adapter key b hres
    simp only [chatCompletions, hres]
    rcases hstream : b.stream.getD false with _ | _
    · simp only [Bool.false_eq_true, if_false]
      cases nsOutcome <;> simp [nonStreamFinish]
    · simp only [if_true]
      cases sOutcome <;> simp [streamFinish]
  · intro adapter key b native hres hstream hns
    simp [chatCompletions, hres, hstream, hns, nonStreamFinish]
  · intro adapter key b status msg hres hstream hns
    simp [chatCompletions, hres, hstream, hns, nonStreamFinish]
  · intro adapter key b err hres hstream hns
    simp [chatCompletions, hres, hstream, hns, nonStreamFinish]
  · intro adapter key b text hres hstream hs
    simp [chatCompletions, hres, hstream, hs, streamFinish]

/-- Witness for C2's amended theorem: a one-provider registry answering a
non-streaming request with an upstream usage field, one without it, and a
rejected unknown-model request. -/
theorem usage_accounting_amended_witness :
    (chatCompletions (ν := Unit) chatRegistryW (fun _ => some "sk") none
        (fun _ => "[]") (fun _ => respWithUsageW) (fun _ => none) baseNormalizeError 7
        (.ok ()) (.exn (.otherVal "unused"))).usageCalls = [] ∧
    (chatCompletions (ν := Unit) chatRegistryW (fun _ => some "sk")
        (some { model := "m", messages := [{ role := .user, content := some "hi" }] })
        (fun _ => "[]") (fun _ => respWithUsageW) (fun _ => none) baseNormalizeError 7
        (.ok ()) (.exn (.otherVal "unused"))).usageCalls =
      [{ providerId := "prov", modelId := "m", inputTokens := 11, outputTokens := 22
         durationMs := 7, success := true, errorMessage := none }] ∧
    (chatCompletions (ν := Unit) chatRegistryW (fun _ => some "sk")
        (some { model := "m", messages := [{ role := .user, content := some "hi" }] })
        (fun _ => "0123456789") (fun _ => respNoUsageW) (fun _ => none) baseNormalizeError 7
        (.ok ()) (.exn (.otherVal "unused"))).usageCalls =
      [{ providerId := "prov", modelId := "m", inputTokens := 3, outputTokens := 2
         durationMs := 7, success := true, errorMessage := none }] ∧
    (chatCompletions (ν := Unit) chatRegistryW (fun _ => some "sk")
        (some { model := "m", messages := [{ role := .user, content := some "hi" }]
                stream := some true })
        (fun _ => "[]") (fun _ => respWithUsageW)
        (fun _ => some { id := "c", created := 0, model := "m"
                         choices := [{ index := 0, delta := { content := some "Hello!" }
                                       finish_reason := none }] })
        baseNormalizeError 7 (.ok ()) (.ok "data: x\n\n")).usageCalls =
      [{ providerId := "prov", modelId := "m", inputTokens := 1, outputTokens := 2
         durationMs := 7, success := true, errorMessage := none }] := by
  refine ⟨?_, ?_, ?_, ?_⟩
  · exact (usage_accounting_amended (ν := Unit) chatRegistryW (fun _ => some "sk") none
      (fun _ => "[]") (fun _ => respWithUsageW) (fun _ => none) baseNormalizeError 7
      (.ok ()) (.exn (.otherVal "unused"))).1
      (400, { message := "Invalid request body. Expected model and messages"
              type := "invalid_request_error", code := some "invalid_body" }) rfl
  · have h := (usage_accounting_amended (ν := Unit) chatRegistryW (fun _ => some "sk")
      (some { model := "m", messages := [{ role := .user, content := some "hi" }] })
      (fun _ => "[]") (fun _ => respWithUsageW) (fun _ => none) baseNormalizeError 7
      (.ok ()) (.exn (.otherVal "unused"))).2.2.1
      ⟨{ id := "prov", models := [{ id := "m", enabled := true }], enabled := true }⟩ "sk"
      { model := "m", messages := [{ role := .user, content := some "hi" }] } ()
      rfl (by decide) rfl
    simpa using h
  · have h := (usage_accounting_amended (ν := Unit) chatRegistryW (fun _ => some "sk")
      (some { model := "m", messages := [{ role := .user, content := some "hi" }] })
      (fun _ => "0123456789") (fun _ => respNoUsageW) (fun _ => none) baseNormalizeError 7
      (.ok ()) (.exn (.otherVal "unused"))).2.2.1
      ⟨{ id := "prov", models := [{ id := "m", enabled := true }], enabled := true }⟩ "sk"
      { model := "m", messages := [{ role := .user, content := some "hi" }] } ()
      rfl (by decide) rfl
    simpa using h
  · have h := (usage_accounting_amended (ν := Unit) chatRegistryW (fun _ => some "sk")
      (some { model := "m", messages := [{ role := .user, content := some "hi" }]
              stream := some true })
      (fun _ => "[]") (fun _ => respWithUsageW)
      (fun _ => some { id := "c", created := 0, model := "m"
                       choices := [{ index := 0, delta := { content := some "Hello!" }
                                     finish_reason := none }] })
      baseNormalizeError 7 (.ok ()) (.ok "data: x\n\n")).2.2.2.2.2
      ⟨{ id := "prov", models := [{ id := "m", enabled := true }], enabled := true }⟩ "sk"
      { model := "m", messages := [{ role := .user, content := some "hi" }]
        stream := some true } "data: x\n\n"
      rfl (by decide) rfl
    simpa using h

/-- C9: for a custom provider adapter, a render or JSON-parse failure of the
compiled response template during `transformStreamChunk` (or a chunk that
fails to parse) yields `null` without raising, while the same failure during
the non-streaming `transformResponse` propagates to the caller; the success
path of the stream transform returns the rendered-and-parsed value. -/
theorem custom_template_failure_handling {γ β : Type}
    (parseChunk : String → Except String γ) (render : OutputWrapped γ → Except String String)
    (parseJson : String → Except String β) :
    (∀ chunk data msg, parseChunk chunk = .ok data →
      transformToObject render parseJson { output := data } = .error msg →
      customTransformStreamChunk parseChunk render parseJson chunk = none) ∧
    (∀ chunk msg, parseChunk chunk = .error msg →
      customTransformStreamChunk parseChunk render parseJson chunk = none) ∧
    (∀ resp msg, transformToObject render parseJson { output := resp } = .error msg →
      customTransformResponse render parseJson resp = .error msg) ∧
    (∀ chunk data v, parseChunk chunk = .ok data →
      transformToObject render parseJson { output := data } = .ok v →
      customTransformStreamChunk parseChunk render parseJson chunk = some v) := by
  refine ⟨?_, ?_, ?_, ?_⟩
  · intro chunk data msg h1 h2
    simp [customTransformStreamChunk, h1, h2]
  · intro chunk msg h1
    simp [customTransformStreamChunk, h1]
  · intro resp msg h
    simp [customTransformResponse, h]
  · intro chunk data v h1 h2
    simp [customTransformStreamChunk, h1, h2]

/-- Concrete chunk parser used by the C9 witness. -/
def parseChunkW : String → Except String Nat := fun s =>
  if s = "bad" then .error "parse failure" else if s = "one" then .ok 1 else .ok 0

/-- Concrete template render used by the C9 witness: fails on output `0`. -/
def renderW : OutputWrapped Nat → Except String String := fun w =>
  if w.output = 0 then .error "render failure" else .ok "rendered"

/-- Concrete rendered-text JSON parse used by the C9 witness. -/
def parseJsonW : String → Except String Nat := fun _ => .ok 7

/-- Witness for C9 at concrete template functions: the stream transform
swallows a parse failure and a render failure as `null`, the response
transform surfaces the render failure, and the stream success path returns
the parsed value. -/
theorem custom_template_failure_handling_witness :
    customTransformStreamChunk parseChunkW renderW parseJsonW "zero" = none ∧
    customTransformStreamChunk parseChunkW renderW parseJsonW "bad" = none ∧
    customTransformResponse renderW parseJsonW 0 = .error "render failure" ∧
    customTransformStreamChunk parseChunkW renderW parseJsonW "one" = some 7 := by
  refine ⟨?_, ?_, ?_, ?_⟩
  · exact (custom_template_failure_handling parseChunkW renderW parseJsonW).1
      "zero" 0 "render failure" rfl rfl
  · exact (custom_template_failure_handling parseChunkW renderW parseJsonW).2.1
      "bad" "parse failure" rfl
  · exact (custom_template_failure_handling parseChunkW renderW parseJsonW).2.2.1
      0 "render failure" rfl
  · exact (custom_template_failure_handling parseChunkW renderW parseJsonW).2.2.2
      "one" 1 7 rfl rfl

end Untangle
